import Mathlib

/-!
Shallow embedding of the DevFlow `ApiIntegrationPlugin`
(`src/plugins/python/ApiIntegrationPlugin/api_integration_plugin.py`).

Python dictionaries become Lean structures; Python exceptions become
`Except String`; HTTP transport is a stub parameter (URL-indexed for the
request path, call-ordered for the diagnostic/health paths); library
functions that live outside the repository (`json.loads`, `json.dumps`,
`hmac`/`hashlib` digests, text decoding) are explicit function parameters.
Byte strings are `List Nat` with an explicit `< 256` bound where it
matters.  Wall-clock times are supplied as inputs (`Stub.ms`).
-/

set_option autoImplicit false

namespace ApiIntegration

/-! ### Basic string / dict helpers mirroring Python idioms -/

/-- Python `d.get(k, default)` on a header mapping (`dict(response.headers)`). -/
def dictGet (kvs : List (String × String)) (k d : String) : String :=
  ((kvs.lookup k).getD d)

/-- Python `k in d` membership test on a header mapping. -/
def hasKey (kvs : List (String × String)) (k : String) : Bool :=
  (kvs.lookup k).isSome

/-- Substring occurrence on character lists, mirroring Python's `needle in hay`. -/
def containsSub (needle : List Char) : List Char → Bool
  | [] => needle.isEmpty
  | c :: rest => needle.isPrefixOf (c :: rest) || containsSub needle rest

/-- Python `needle in hay` on strings. -/
def strContains (hay needle : String) : Bool :=
  containsSub needle.data hay.data

/-- ASCII lower-casing of one character (headers are ASCII; mirrors
Python `str.lower` on them). -/
def charLower (c : Char) : Char :=
  if 65 ≤ c.toNat ∧ c.toNat ≤ 90 then Char.ofNat (c.toNat + 32) else c

/-- Python `s.lower()` (ASCII). -/
def strLower (s : String) : String :=
  String.mk (s.data.map charLower)

/-- Python `s.startswith(pre)`. -/
def strStartsWith (s pre : String) : Bool :=
  pre.data.isPrefixOf s.data

/-- Python `str([200, 201])` rendering of a status list, as used in the
f-string of `_validate_response`. -/
def pyListStr (l : List Nat) : String :=
  "[" ++ String.intercalate ", " (l.map toString) ++ "]"

/-! ### Base64 (the plugin calls `base64.b64encode` on response bytes) -/

/-- The standard base64 alphabet, by sextet value. -/
def b64chr (n : Nat) : Char :=
  if n < 26 then Char.ofNat (n + 65)
  else if n < 52 then Char.ofNat (n + 71)
  else if n < 62 then Char.ofNat (n - 4)
  else if n = 62 then '+'
  else '/'

/-- Inverse of the base64 alphabet (64 for characters outside it). -/
def b64val (c : Char) : Nat :=
  let n := c.toNat
  if 65 ≤ n ∧ n ≤ 90 then n - 65
  else if 97 ≤ n ∧ n ≤ 122 then n - 71
  else if 48 ≤ n ∧ n ≤ 57 then n + 4
  else if n = 43 then 62
  else if n = 47 then 63
  else 64

/-- Standard base64 encoding of a byte sequence (RFC 4648, with padding),
modelling `base64.b64encode(...).decode('utf-8')`. -/
def b64encode : List Nat → List Char
  | [] => []
  | [a] => [b64chr (a / 4), b64chr (a % 4 * 16), '=', '=']
  | [a, b] => [b64chr (a / 4), b64chr (a % 4 * 16 + b / 16), b64chr (b % 16 * 4), '=']
  | a :: b :: c :: rest =>
      b64chr (a / 4) :: b64chr (a % 4 * 16 + b / 16) ::
      b64chr (b % 16 * 4 + c / 64) :: b64chr (c % 64) :: b64encode rest

/-- Standard base64 decoding (the caller-side inverse the spec's round-trip
property refers to). -/
def b64decode : List Char → List Nat
  | w :: x :: y :: z :: rest =>
      if z = '=' then
        if y = '=' then [b64val w * 4 + b64val x / 16]
        else [b64val w * 4 + b64val x / 16, b64val x % 16 * 16 + b64val y / 4]
      else
        (b64val w * 4 + b64val x / 16) :: (b64val x % 16 * 16 + b64val y / 4) ::
        (b64val y % 4 * 64 + b64val z) :: b64decode rest
  | _ => []

/-! ### HTTP response and transport stub -/

/-- A completed `httpx` response as the plugin reads it: status code, header
mapping, final (post-redirect) URL, raw body bytes (`response.content`) and
the client-decoded body text (`response.text`). -/
structure Response where
  status : Nat
  headers : List (String × String)
  url : String
  content : List Nat
  text : String
deriving Repr, DecidableEq

/-- One stubbed transport call: either a completed `Response` or a raised
transport exception (message), plus the wall-clock milliseconds the call
took (times are inputs to the model, not computed). -/
structure Stub where
  outcome : Except String Response
  ms : Nat

/-- Whether an `Except` value is a success (Python: "no exception was raised"). -/
def exceptOk {ε α : Type} : Except ε α → Bool
  | .ok _ => true
  | .error _ => false

/-! ### Operation model (`_get_operation` field defaults) -/

/-- Auth descriptor (`operation['auth']`), a Python dict with optional keys. -/
structure AuthConfig where
  type : Option String := none
  username : Option String := none
  password : Option String := none
  token : Option String := none
  key : Option String := none
  header : Option String := none
deriving Repr, DecidableEq

/-- What `_prepare_auth` returns: a transport-level credential object or a
header mapping. -/
inductive Credential where
  | basicAuth (username password : String)
  | headerAuth (headers : List (String × String))
deriving Repr, DecidableEq

/-- Python truthiness of an optional string: `None` and `''` are falsy. -/
def optStrTruthy : Option String → Bool
  | none => false
  | some s => !(s == "")

/-- Function `_prepare_auth` (lines 445–466): dispatch on `auth_config.get('type',
'basic')`; each recognized variant returns a credential only when its
required fields are truthy, otherwise control falls through to
`raise ValueError('Unsupported auth type: ...')`. -/
def prepareAuth (cfg : AuthConfig) : Except String Credential :=
  let authType := cfg.type.getD "basic"
  if authType == "basic" then
    if optStrTruthy cfg.username && optStrTruthy cfg.password then
      .ok (.basicAuth (cfg.username.getD "") (cfg.password.getD ""))
    else .error ("Unsupported auth type: " ++ authType)
  else if authType == "bearer" then
    if optStrTruthy cfg.token then
      .ok (.headerAuth [("Authorization", "Bearer " ++ cfg.token.getD "")])
    else .error ("Unsupported auth type: " ++ authType)
  else if authType == "api_key" then
    if optStrTruthy cfg.key then
      .ok (.headerAuth [(cfg.header.getD "X-API-Key", cfg.key.getD "")])
    else .error ("Unsupported auth type: " ++ authType)
  else .error ("Unsupported auth type: " ++ authType)

/-- A request operation as assembled by `_get_operation` / consumed by
`_make_request`, with that function's defaults.  `url := ""` models an
absent (`None`) or empty URL — both are falsy in `if not url`.  The body
and param fields are carried for shape fidelity; the stub transport is
keyed on the URL, so they do not influence the stubbed outcome. -/
structure Operation where
  method : String := "GET"
  url : String := ""
  headers : List (String × String) := []
  params : List (String × String) := []
  auth : Option AuthConfig := none
  timeout : Option Nat := none
  validateResponse : Bool := true
  expectedStatus : List Nat := [200]
deriving Repr, DecidableEq

/-! ### Response classification (`_parse_response`, lines 473–500) -/

/-- The classified `data` value: parsed JSON (abstract type `α`), raw text,
base64 text, or a parse-failure message. -/
inductive RespData (α : Type) where
  | json (v : α)
  | text (s : String)
  | binary (s : String)
  | err (s : String)
deriving Repr, DecidableEq

/-- The structured dict `_parse_response` returns. `size` is present only in
the binary branch. -/
structure ParsedResult (α : Type) where
  status : Nat
  headers : List (String × String)
  url : String
  success : Bool
  data : RespData α
  contentType : String
  size : Option Nat := none
deriving Repr, DecidableEq

/-- Function `_parse_response`: classify by the lowercased `content-type` header via
substring tests, in source order; a JSON parse failure is caught and turned
into the `error` tag.  `jsonParse` stands for `response.json()` applied to
the body bytes. -/
def parseResponse {α : Type} (jsonParse : List Nat → Except String α)
    (resp : Response) : ParsedResult α :=
  let ct := strLower (dictGet resp.headers "content-type" "")
  if strContains ct "application/json" then
    match jsonParse resp.content with
    | .ok v =>
        { status := resp.status, headers := resp.headers, url := resp.url
          success := decide (resp.status < 400)
          data := .json v, contentType := "json" }
    | .error e =>
        { status := resp.status, headers := resp.headers, url := resp.url
          success := decide (resp.status < 400)
          data := .err ("Error parsing response: " ++ e), contentType := "error" }
  else if strContains ct "text/" || strContains ct "application/xml" then
    { status := resp.status, headers := resp.headers, url := resp.url
      success := decide (resp.status < 400)
      data := .text resp.text, contentType := "text" }
  else
    { status := resp.status, headers := resp.headers, url := resp.url
      success := decide (resp.status < 400)
      data := .binary (String.mk (b64encode resp.content)), contentType := "binary"
      size := some resp.content.length }

/-! ### Single request (`_make_request`, lines 155–196) -/

/-- The dict returned by `_make_request`: the parsed response plus
`requestTime` and the fixed `attempt = 1`. -/
structure RequestResult (α : Type) extends ParsedResult α where
  requestTime : Nat
  attempt : Nat
deriving Repr, DecidableEq

/-- Function `_make_request`: validate the URL, resolve auth (errors propagate before
any I/O), issue the (stubbed) call, optionally validate the status against
`expectedStatus` (raising the `Unexpected status code` ValueError), then
classify the response. -/
def makeRequest {α : Type} (jsonParse : List Nat → Except String α)
    (transport : String → Stub) (op : Operation) : Except String (RequestResult α) :=
  if op.url == "" then .error "URL is required for API request"
  else
    let afterAuth : Except String Unit :=
      match op.auth with
      | some cfg => (prepareAuth cfg).map (fun _ => ())
      | none => .ok ()
    match afterAuth with
    | .error e => .error e
    | .ok _ =>
      let stub := transport op.url
      match stub.outcome with
      | .error e => .error e
      | .ok resp =>
        if op.validateResponse && !(op.expectedStatus.contains resp.status) then
          .error ("Unexpected status code: " ++ toString resp.status ++
                  ", expected one of " ++ pyListStr op.expectedStatus)
        else
          .ok { toParsedResult := parseResponse jsonParse resp
                requestTime := stub.ms, attempt := 1 }

/-- The auth step of `_make_request` raises nothing: either no descriptor is
present, or `_prepare_auth` returns a credential. -/
def authOk (op : Operation) : Bool :=
  match op.auth with
  | some cfg => exceptOk (prepareAuth cfg)
  | none => true

/-- A completed request outcome either failed or carries `success = true`
(the shape test-stub suites satisfy: succeeding stubs answer with status
< 400). -/
def okSuccess {α : Type} : Except String (RequestResult α) → Bool
  | .ok r => r.success
  | .error _ => true

/-! ### Batch requests (`_make_batch_requests`, lines 198–229) -/

/-- One entry of the batch `results` list: a completed request dict or the
failure record `{url, error, success: False}`. -/
inductive BatchItem (α : Type) where
  | result (r : RequestResult α)
  | failure (url : String) (error : String)
deriving Repr, DecidableEq

/-- Python `r.get('success')`: present on both item shapes (the request dict
always carries one; the failure record sets it to `False`). -/
def itemSuccess {α : Type} : BatchItem α → Option Bool
  | .result r => some r.success
  | .failure _ _ => some false

/-- Line 218, `sum(1 for r in results if r.get('success', True))` — note: an absent
`success` key counts as successful. -/
def successfulCount (ss : List (Option Bool)) : Nat :=
  (ss.filter (fun o => o.getD true)).length

/-- Line 219, `failed = len(results) - successful`. -/
def failedCount (ss : List (Option Bool)) : Nat :=
  ss.length - successfulCount ss

/-- The inner `make_single_request` closure: run `_make_request`, converting
any exception into the failure record. -/
def makeSingleRequest {α : Type} (jsonParse : List Nat → Except String α)
    (transport : String → Stub) (endpointConfig : Operation) : BatchItem α :=
  match makeRequest jsonParse transport endpointConfig with
  | .ok r => .result r
  | .error e => .failure endpointConfig.url e

/-- The dict `_make_batch_requests` returns (`batchTime` is wall-clock and
stays outside the model). -/
structure BatchResult (α : Type) where
  totalRequests : Nat
  successful : Nat
  failed : Nat
  results : List (BatchItem α)
deriving Repr, DecidableEq

/-- Function `_make_batch_requests`: fan out over the endpoints (`asyncio.gather`
keeps positional order), then tally over `r.get('success', True)`. -/
def makeBatchRequests {α : Type} (jsonParse : List Nat → Except String α)
    (transport : String → Stub) (endpoints : List Operation) : BatchResult α :=
  let results := endpoints.map (makeSingleRequest jsonParse transport)
  { totalRequests := endpoints.length
    successful := successfulCount (results.map itemSuccess)
    failed := failedCount (results.map itemSuccess)
    results := results }

/-! ### Health check (`_health_check`, lines 362–443) -/

/-- One entry of `health_data['checks']`: a Python dict whose keys vary by
check; absent keys are `none`. -/
structure CheckRec where
  status : String
  statusCode : Option Nat := none
  responseTime : Option Nat := none
  error : Option String := none
  details : Option String := none
  present : Option (List String) := none
  total : Option Nat := none
deriving Repr, DecidableEq

/-- The fixed 4-header security set (lines 410–415). -/
def securityHeadersList : List String :=
  ["x-frame-options", "x-content-type-options", "x-xss-protection",
   "strict-transport-security"]

/-- Check 1: HTTP connectivity — `status < 400` is healthy; an exception is
unhealthy with the error recorded. -/
def connectivityCheck (s : Stub) : CheckRec :=
  match s.outcome with
  | .ok resp =>
      { status := if resp.status < 400 then "healthy" else "unhealthy"
        statusCode := some resp.status, responseTime := some s.ms }
  | .error e => { status := "unhealthy", error := some e }

/-- Check 2: SSL/TLS — any completed call is healthy. -/
def sslCheck (s : Stub) : CheckRec :=
  match s.outcome with
  | .ok _ => { status := "healthy", details := some "SSL certificate valid" }
  | .error e => { status := "unhealthy", error := some e }

/-- Check 3: security headers — more than 2 of the fixed 4 present is
healthy, else warning; an exception is unhealthy. -/
def securityHeadersCheck (s : Stub) : CheckRec :=
  match s.outcome with
  | .ok resp =>
      let present := securityHeadersList.filter (fun h => hasKey resp.headers h)
      { status := if present.length > 2 then "healthy" else "warning"
        present := some present, total := some securityHeadersList.length }
  | .error e => { status := "unhealthy", error := some e }

/-- Lines 430–440: `healthy_count == total` → healthy, else
`healthy_count > total / 2` (Python true division, i.e. `2 * healthy_count
> total` over the integers) → degraded, else unhealthy. -/
def overallHealth (checks : List CheckRec) : String :=
  let healthyCount := (checks.filter (fun c => c.status == "healthy")).length
  let total := checks.length
  if healthyCount = total then "healthy"
  else if 2 * healthyCount > total then "degraded"
  else "unhealthy"

/-- Modelled from the spec's wording of §4.8, for comparison with
`overallHealth`: all checks healthy → healthy; a strict majority (more than
half) healthy → degraded; otherwise — ties at exactly half included —
unhealthy. -/
def specOverallVerdict (statuses : List String) : String :=
  if statuses.all (fun s => s == "healthy") then "healthy"
  else if 2 * (statuses.filter (fun s => s == "healthy")).length > statuses.length then
    "degraded"
  else "unhealthy"

/-- The `health_data` dict (timestamp is wall-clock and stays outside the model). -/
structure HealthReport where
  url : String
  checks : List (String × CheckRec)
  overall : String
deriving Repr, DecidableEq

/-- Function `_health_check`: the three checks issue their own sequential GETs
(`s1`, `s2`, `s3` are those calls' stubbed outcomes in order; when the URL
is not https the second physical call is the security-header check).  Note
the function performs no URL validation of its own. -/
def healthCheck (url : String) (s1 s2 s3 : Stub) : HealthReport :=
  let checks :=
    if strStartsWith url "https://" then
      [("connectivity", connectivityCheck s1), ("ssl", sslCheck s2),
       ("security_headers", securityHeadersCheck s3)]
    else
      [("connectivity", connectivityCheck s1),
       ("security_headers", securityHeadersCheck s2)]
  { url := url, checks := checks
    overall := overallHealth (checks.map (fun p => p.2)) }

/-! ### Endpoint diagnostics (`_test_endpoint`, lines 231–318) -/

/-- One entry of `test_results['tests']`. -/
structure TestRec where
  name : String
  status : String
  details : String
deriving Repr, DecidableEq

/-- The `test_results` dict. -/
structure TestReport where
  url : String
  tests : List TestRec
  overall : String
deriving Repr, DecidableEq

/-- Function `_test_endpoint`: three independent GETs (stubbed as `s1 s2 s3`), each
failure isolated.  The time details use integer milliseconds in place of
Python's `f'{t:.2f}'` rendering.  Note: the third check's exception branch
appends a failed test but does not flip `overall` (source lines 310–315),
and no URL validation is performed. -/
def testEndpoint {α : Type} (jsonParse : List Nat → Except String α)
    (url : String) (s1 s2 s3 : Stub) : TestReport :=
  let step1 : TestRec × Bool :=
    match s1.outcome with
    | .ok resp =>
        (⟨"Connectivity", "passed", "Endpoint reachable - Status: " ++ toString resp.status⟩, false)
    | .error e => (⟨"Connectivity", "failed", "Endpoint unreachable: " ++ e⟩, true)
  let step2 : TestRec × Bool :=
    match s2.outcome with
    | .ok _ =>
        if s2.ms < 1000 then
          (⟨"Response Time", "passed", "Response time: " ++ toString s2.ms ++ "ms"⟩, false)
        else
          (⟨"Response Time", "warning", "Slow response: " ++ toString s2.ms ++ "ms"⟩, false)
    | .error e => (⟨"Response Time", "failed", "Timeout or error: " ++ e⟩, true)
  let step3 : TestRec × Bool :=
    match s3.outcome with
    | .ok resp =>
        let ct := dictGet resp.headers "content-type" ""
        if strContains ct "application/json" then
          match jsonParse resp.content with
          | .ok _ => (⟨"JSON Format", "passed", "Valid JSON response"⟩, false)
          | .error _ => (⟨"JSON Format", "failed", "Invalid JSON in response"⟩, true)
        else (⟨"Content Type", "info", "Content-Type: " ++ ct⟩, false)
    | .error e => (⟨"Response Analysis", "failed", "Error analyzing response: " ++ e⟩, false)
  { url := url
    tests := [step1.1, step2.1, step3.1]
    overall := if step1.2 || step2.2 || step3.2 then "failed" else "passed" }

/-! ### Webhook validation (`_validate_webhook`, lines 320–360) -/

/-- A Python payload value as the webhook descriptor may carry it; `β` is
the (opaque) type of the JSON values inside a dict payload. -/
inductive PyVal (β : Type) where
  | pdict (kvs : List (String × β))
  | pstr (s : String)
  | pint (n : Int)
  | pbool (b : Bool)
deriving Repr, DecidableEq

/-- Python truthiness of a payload value (`{}`, `''`, `0`, `False` are
falsy). -/
def pyTruthy {β : Type} : PyVal β → Bool
  | .pdict kvs => !kvs.isEmpty
  | .pstr s => !(s == "")
  | .pint n => !(n == 0)
  | .pbool b => b

/-- Truthiness of an optional payload (`None` is falsy). -/
def optValTruthy {β : Type} : Option (PyVal β) → Bool
  | none => false
  | some v => pyTruthy v

/-- The canonical bytes hashed by `_validate_webhook`: a dict payload goes
through `json.dumps(payload, separators=(',', ':'))` (the `dumps`
parameter); anything else through Python `str(...)`. -/
def canonicalPayload {β : Type} (dumps : List (String × β) → String) : PyVal β → String
  | .pdict kvs => dumps kvs
  | .pstr s => s
  | .pint n => toString n
  | .pbool b => if b then "True" else "False"

/-- The webhook descriptor (`operation['webhook']`), keys optional. -/
structure WebhookConfig (β : Type) where
  payload : Option (PyVal β) := none
  signature : Option String := none
  secret : Option String := none
  algorithm : Option String := none
deriving Repr, DecidableEq

/-- The dict `_validate_webhook` returns. -/
structure WebhookResult where
  valid : Bool
  algorithm : String
  providedSignature : String
  expectedSignature : String
  payloadSize : Nat
deriving Repr, DecidableEq

/-- The missing-field ValueError message (line 330). -/
def webhookMissingMsg : String :=
  "Payload, signature, and secret are required for webhook validation"

/-- Function `_validate_webhook`: `if not all([payload, signature, secret])` raises
the missing-field error (Python truthiness, so falsy-but-present values
also fail); otherwise recompute the HMAC hexdigest over the canonical
payload and compare with `hmac.compare_digest` (semantically string
equality; the constant-time aspect is a timing property outside the
embedding).  `hmacHex algorithm secret message` stands for
`hmac.new(secret, message, getattr(hashlib, algorithm)).hexdigest()`. -/
def validateWebhook {β : Type} (dumps : List (String × β) → String)
    (hmacHex : String → String → String → String)
    (cfg : WebhookConfig β) : Except String WebhookResult :=
  let algorithm := cfg.algorithm.getD "sha256"
  match cfg.payload, cfg.signature, cfg.secret with
  | some payload, some signature, some secret =>
    if pyTruthy payload && !(signature == "") && !(secret == "") then
      let payloadStr := canonicalPayload dumps payload
      let expected := hmacHex algorithm secret payloadStr
      .ok { valid := signature == expected
            algorithm := algorithm
            providedSignature := signature
            expectedSignature := expected
            payloadSize := payloadStr.length }
    else .error webhookMissingMsg
  | _, _, _ => .error webhookMissingMsg

/-! ### Dispatcher envelope (`execute_async`, lines 28–77) -/

/-- The result envelope.  On success all six keys are present; the failure
branch of `execute_async` builds its dict without a `data` key, modelled
here as `data := none`. -/
structure Envelope (α : Type) where
  success : Bool
  message : String
  data : Option α
  executionTimeMs : Nat
  timestamp : String
  logs : List String
deriving Repr, DecidableEq

/-- Method `execute_async`, its top-level try/except around the operation handlers:
a handler outcome (normal result or raised error message) becomes the
uniform envelope.  Elapsed time, timestamp and logs are wall-clock /
side-channel inputs. -/
def executeAsync {α : Type} (opType : String) (ms : Nat) (ts : String)
    (logs : List String) (outcome : Except String α) : Envelope α :=
  match outcome with
  | .ok result =>
      { success := true
        message := "API operation '" ++ opType ++ "' completed successfully"
        data := some result
        executionTimeMs := ms, timestamp := ts, logs := logs }
  | .error e =>
      { success := false
        message := "API operation failed: " ++ e
        data := none
        executionTimeMs := ms, timestamp := ts, logs := logs }

/-! ## Theorems -/

/-! ### Base64 correctness (helper lemmas) -/

theorem b64val_b64chr : ∀ n < 64, b64val (b64chr n) = n := by decide

theorem b64chr_ne_pad : ∀ n < 64, b64chr n ≠ '=' := by decide

/-- Decoding inverts encoding on genuine byte sequences. -/
theorem b64_roundtrip : ∀ bs : List Nat, (∀ b ∈ bs, b < 256) →
    b64decode (b64encode bs) = bs
  | [], _ => rfl
  | [a], h => by
      have ha : a < 256 := h a (by simp)
      have h1 : a / 4 < 64 := by omega
      have h2 : a % 4 * 16 < 64 := by omega
      simp only [b64encode, b64decode, if_pos rfl]
      rw [b64val_b64chr _ h1, b64val_b64chr _ h2]
      have : a / 4 * 4 + a % 4 * 16 / 16 = a := by omega
      rw [this]
      simp
  | [a, b], h => by
      have ha : a < 256 := h a (by simp)
      have hb : b < 256 := h b (by simp)
      have h1 : a / 4 < 64 := by omega
      have h2 : a % 4 * 16 + b / 16 < 64 := by omega
      have h3 : b % 16 * 4 < 64 := by omega
      simp only [b64encode, b64decode, if_pos rfl]
      rw [if_neg (b64chr_ne_pad _ h3)]
      rw [b64val_b64chr _ h1, b64val_b64chr _ h2, b64val_b64chr _ h3]
      have e1 : a / 4 * 4 + (a % 4 * 16 + b / 16) / 16 = a := by omega
      have e2 : (a % 4 * 16 + b / 16) % 16 * 16 + b % 16 * 4 / 4 = b := by omega
      rw [e1, e2]
      simp
  | a :: b :: c :: rest, h => by
      have ha : a < 256 := h a (by simp)
      have hb : b < 256 := h b (by simp)
      have hc : c < 256 := h c (by simp)
      have h1 : a / 4 < 64 := by omega
      have h2 : a % 4 * 16 + b / 16 < 64 := by omega
      have h3 : b % 16 * 4 + c / 64 < 64 := by omega
      have h4 : c % 64 < 64 := by omega
      have ih : b64decode (b64encode rest) = rest :=
        b64_roundtrip rest (fun x hx => h x (by simp [hx]))
      simp only [b64encode, b64decode]
      rw [if_neg (b64chr_ne_pad _ h4)]
      rw [b64val_b64chr _ h1, b64val_b64chr _ h2, b64val_b64chr _ h3, b64val_b64chr _ h4]
      have e1 : a / 4 * 4 + (a % 4 * 16 + b / 16) / 16 = a := by omega
      have e2 : (a % 4 * 16 + b / 16) % 16 * 16 + (b % 16 * 4 + c / 64) / 4 = b := by omega
      have e3 : (b % 16 * 4 + c / 64) % 4 * 64 + c % 64 = c := by omega
      rw [e1, e2, e3, ih]

/-! ### List helper lemmas -/

theorem length_filter_eq_length_iff {γ : Type} (p : γ → Bool) (l : List γ) :
    (l.filter p).length = l.length ↔ l.all p = true := by
  induction l with
  | nil => simp
  | cons a t ih =>
    cases hpa : p a
    · have hle := List.length_filter_le p t
      simp [List.filter_cons, hpa]
      omega
    · simp only [List.filter_cons, hpa, cond_true, List.length_cons, List.all_cons,
        Bool.true_and, List.filter]
      rw [← ih]
      omega

theorem all_map_comp {γ δ : Type} (f : γ → δ) (p : δ → Bool) (l : List γ) :
    (l.map f).all p = l.all (fun a => p (f a)) := by
  induction l with
  | nil => rfl
  | cons a t ih => simp [List.all_cons, ih]

/-! ### C2 — batch success/failure tallying -/

/-- C2 counterexample: the claim says an item whose result lacks a `success`
field counts as a failure; the code's `r.get('success', True)` counts it as
a success.  On the one-item sequence whose entry has no `success` field the
code tallies `successful = 1, failed = 0`, where the claim demands
`successful = 0, failed = 1`. -/
theorem c2_missing_success_counts_as_success :
    successfulCount [none] = 1 ∧ failedCount [none] = 0
    ∧ ¬(successfulCount [none] = 0 ∧ failedCount [none] = 1) := by
  refine ⟨rfl, rfl, ?_⟩
  simp [successfulCount, failedCount]

/-- C2 (amended): the successful and failed counts partition the per-item
results over their `success` field; failure records count as unsuccessful;
an item whose result lacks a `success` field counts as a SUCCESS (the code
defaults the missing field to `True`), though every item the batch pipeline
actually produces carries an explicit `success` field. -/
theorem c2_batch_count_partition (ss : List (Option Bool)) :
    successfulCount ss = (ss.filter (fun o => o.getD true)).length
    ∧ failedCount ss = (ss.filter (fun o => !(o.getD true))).length
    ∧ successfulCount ss + failedCount ss = ss.length
    ∧ (∀ u e, itemSuccess (BatchItem.failure (α := Unit) u e) = some false)
    ∧ successfulCount (none :: ss) = successfulCount ss + 1 := by
  have hpart := List.length_eq_length_filter_add (l := ss) (fun o => o.getD true)
  refine ⟨rfl, ?_, ?_, fun u e => rfl, ?_⟩
  · unfold failedCount successfulCount
    omega
  · unfold failedCount successfulCount
    have hle := List.length_filter_le (fun o : Option Bool => o.getD true) ss
    omega
  · simp [successfulCount, List.filter_cons]

/-! ### C3 — webhook signature verification -/

/-- C3: with payload, signature and secret present (and truthy), webhook
verification returns a result — never an error — whose `valid` flag is true
exactly when the provided signature equals the recomputed HMAC hexdigest of
the canonicalized payload under the secret, with both signatures surfaced;
being a pure function of its inputs, repeated calls recompute the identical
signature. -/
theorem c3_webhook_verification {β : Type} (dumps : List (String × β) → String)
    (hmacHex : String → String → String → String) (payload : PyVal β)
    (signature secret : String) (alg : Option String)
    (hp : pyTruthy payload = true) (hs : signature ≠ "") (hk : secret ≠ "") :
    validateWebhook dumps hmacHex
        { payload := some payload, signature := some signature,
          secret := some secret, algorithm := alg } =
      .ok { valid := signature ==
                hmacHex (alg.getD "sha256") secret (canonicalPayload dumps payload)
            algorithm := alg.getD "sha256"
            providedSignature := signature
            expectedSignature :=
              hmacHex (alg.getD "sha256") secret (canonicalPayload dumps payload)
            payloadSize := (canonicalPayload dumps payload).length }
    ∧ ((signature ==
          hmacHex (alg.getD "sha256") secret (canonicalPayload dumps payload)) = true
        ↔ signature =
            hmacHex (alg.getD "sha256") secret (canonicalPayload dumps payload))
    ∧ validateWebhook dumps hmacHex
        { payload := some payload, signature := some signature,
          secret := some secret, algorithm := alg } =
      validateWebhook dumps hmacHex
        { payload := some payload, signature := some signature,
          secret := some secret, algorithm := alg } := by
  refine ⟨?_, beq_iff_eq, rfl⟩
  simp [validateWebhook, hp, hs, hk]

theorem c3_webhook_verification_witness :
    validateWebhook (β := Unit) (fun _ => "d") (fun _ _ m => "h" ++ m)
        { payload := some (.pstr "x"), signature := some "hx",
          secret := some "k", algorithm := none } =
      .ok { valid := true, algorithm := "sha256", providedSignature := "hx",
            expectedSignature := "hx", payloadSize := 1 } :=
  (c3_webhook_verification (β := Unit) (fun _ => "d") (fun _ _ m => "h" ++ m)
    (.pstr "x") "hx" "k" none rfl (by decide) (by decide)).1

/-! ### C5 — health verdict majority rule -/

theorem overallHealth_eq_specVerdict (checks : List CheckRec) :
    overallHealth checks = specOverallVerdict (checks.map (fun c => c.status)) := by
  unfold overallHealth specOverallVerdict
  have hmap : ((checks.map (fun c => c.status)).filter (fun s => s == "healthy")).length
      = (checks.filter (fun c => c.status == "healthy")).length := by
    rw [List.filter_map, List.length_map]
    rfl
  by_cases hall : checks.all (fun c => c.status == "healthy") = true
  · have hlen : (checks.filter (fun c => c.status == "healthy")).length = checks.length :=
      (length_filter_eq_length_iff _ _).mpr hall
    have hall2 : (checks.map (fun c => c.status)).all (fun s => s == "healthy") = true := by
      rw [all_map_comp]; exact hall
    simp [hlen, hall2]
  · have hlen : (checks.filter (fun c => c.status == "healthy")).length ≠ checks.length :=
      fun h => hall ((length_filter_eq_length_iff _ _).mp h)
    have hall2 : ¬((checks.map (fun c => c.status)).all (fun s => s == "healthy") = true) := by
      rw [all_map_comp]; exact hall
    rw [if_neg hlen, if_neg hall2, hmap, List.length_map]

/-- C5: the health report's overall verdict follows the spec's majority
rule — `healthy` when every check is healthy, `degraded` when healthy
checks are a strict majority but not all, `unhealthy` otherwise (ties at
exactly half included) — and the check set is connectivity, TLS (present
exactly when the URL has the https scheme prefix), and security headers. -/
theorem c5_health_overall_majority (url : String) (s1 s2 s3 : Stub) :
    ((healthCheck url s1 s2 s3).checks.map Prod.fst =
      if strStartsWith url "https://" then ["connectivity", "ssl", "security_headers"]
      else ["connectivity", "security_headers"])
    ∧ (healthCheck url s1 s2 s3).overall =
        specOverallVerdict ((healthCheck url s1 s2 s3).checks.map (fun p => p.2.status)) := by
  constructor
  · by_cases h : strStartsWith url "https://" <;> simp [healthCheck, h]
  · by_cases h : strStartsWith url "https://" <;>
      simp [healthCheck, h, overallHealth_eq_specVerdict, List.map_map, Function.comp]

/-! ### C7 — uniform result envelope -/

/-- C7 counterexample: the claim says every outcome returns the same
envelope shape with the error's message substituted for `data` on failure;
the code's failure branch builds its envelope without a `data` key (here
`data = none`), with the error message embedded in `message` instead. -/
theorem c7_failure_envelope_omits_data :
    executeAsync (α := String) "request" 5 "t" [] (.error "boom") =
      { success := false, message := "API operation failed: boom", data := none,
        executionTimeMs := 5, timestamp := "t", logs := [] }
    ∧ (executeAsync (α := String) "request" 5 "t" [] (.error "boom")).data ≠ some "boom" := by
  constructor
  · rfl
  · simp [executeAsync]

/-- C7 (amended): every outcome yields the envelope `{success, message,
data, executionTimeMs, timestamp, logs}`; a handler success yields
`success = true` with the result as `data`; any handler failure is caught
and yields `success = false` with the error's message embedded in the
`message` field while the `data` field is omitted (no exception escapes the
dispatcher, which is total). -/
theorem c7_envelope_shape {α : Type} (opType : String) (ms : Nat) (ts : String)
    (logs : List String) (outcome : Except String α) :
    (∀ v, outcome = .ok v → executeAsync opType ms ts logs outcome =
      { success := true
        message := "API operation '" ++ opType ++ "' completed successfully"
        data := some v, executionTimeMs := ms, timestamp := ts, logs := logs })
    ∧ (∀ e, outcome = .error e → executeAsync opType ms ts logs outcome =
      { success := false, message := "API operation failed: " ++ e
        data := none, executionTimeMs := ms, timestamp := ts, logs := logs })
    ∧ (executeAsync opType ms ts logs outcome).success = exceptOk outcome := by
  refine ⟨fun v hv => ?_, fun e he => ?_, ?_⟩
  · subst hv; rfl
  · subst he; rfl
  · cases outcome <;> rfl

theorem c7_envelope_shape_witness :
    executeAsync (α := Nat) "request" 5 "t" [] (.ok 7) =
      { success := true
        message := "API operation 'request' completed successfully"
        data := some 7, executionTimeMs := 5, timestamp := "t", logs := [] } :=
  (c7_envelope_shape "request" 5 "t" [] (.ok 7)).1 7 rfl

/-! ### C9 — webhook field presence tested by truthiness -/

/-- C9: `_validate_webhook` tests payload/signature/secret by Python
truthiness, not key existence: a descriptor in which any of the three is
present but falsy (e.g. payload `{}` or an empty string) raises the
missing-field error, and the HMAC is never computed (the outcome is
independent of the digest and serialization functions). -/
theorem c9_webhook_truthiness {β : Type}
    (dumps dumps2 : List (String × β) → String)
    (hmacHex hmacHex2 : String → String → String → String)
    (cfg : WebhookConfig β)
    (hp : cfg.payload.isSome = true) (hs : cfg.signature.isSome = true)
    (hk : cfg.secret.isSome = true)
    (hfalsy : optValTruthy cfg.payload = false ∨ optStrTruthy cfg.signature = false
      ∨ optStrTruthy cfg.secret = false) :
    validateWebhook dumps hmacHex cfg = .error webhookMissingMsg
    ∧ validateWebhook dumps hmacHex cfg = validateWebhook dumps2 hmacHex2 cfg := by
  obtain ⟨p, hp'⟩ := Option.isSome_iff_exists.mp hp
  obtain ⟨s, hs'⟩ := Option.isSome_iff_exists.mp hs
  obtain ⟨k, hk'⟩ := Option.isSome_iff_exists.mp hk
  have hcond : (pyTruthy p && !(s == "") && !(k == "")) = false := by
    rcases hfalsy with h | h | h
    · rw [hp'] at h
      simp [optValTruthy] at h
      simp [h]
    · rw [hs'] at h
      simp [optStrTruthy] at h
      simp [h]
    · rw [hk'] at h
      simp [optStrTruthy] at h
      simp [h]
  constructor <;> simp [validateWebhook, hp', hs', hk', hcond]

theorem c9_webhook_truthiness_witness :
    validateWebhook (β := Unit) (fun _ => "d") (fun _ _ m => m)
        { payload := some (.pdict []), signature := some "s",
          secret := some "k", algorithm := none } = .error webhookMissingMsg :=
  (c9_webhook_truthiness (β := Unit) (fun _ => "d") (fun _ => "!")
    (fun _ _ m => m) (fun _ _ _ => "!")
    { payload := some (.pdict []), signature := some "s",
      secret := some "k", algorithm := none }
    rfl rfl rfl (Or.inl rfl)).1

/-! ### C10 — auth descriptor resolution -/

/-- C10: an auth descriptor with no `type` field resolves exactly like the
`basic` variant; and each recognized variant with missing or empty required
fields (basic without truthy username+password, bearer without token,
api_key without key) raises `Unsupported auth type: <tag>` instead of
yielding a partial credential. -/
theorem c10_prepare_auth (cfg : AuthConfig) :
    (cfg.type = none → prepareAuth cfg = prepareAuth { cfg with type := some "basic" })
    ∧ ((optStrTruthy cfg.username && optStrTruthy cfg.password) = false →
        prepareAuth { cfg with type := some "basic" } =
          .error "Unsupported auth type: basic")
    ∧ (optStrTruthy cfg.token = false →
        prepareAuth { cfg with type := some "bearer" } =
          .error "Unsupported auth type: bearer")
    ∧ (optStrTruthy cfg.key = false →
        prepareAuth { cfg with type := some "api_key" } =
          .error "Unsupported auth type: api_key") := by
  refine ⟨fun h => ?_, fun h => ?_, fun h => ?_, fun h => ?_⟩
  · simp [prepareAuth, h]
  · simp [prepareAuth, h]
  · simp [prepareAuth, h]
  · simp [prepareAuth, h]

theorem c10_prepare_auth_witness :
    prepareAuth { type := none } = prepareAuth { type := some "basic" }
    ∧ prepareAuth { type := some "basic" } = .error "Unsupported auth type: basic"
    ∧ prepareAuth { type := some "bearer" } = .error "Unsupported auth type: bearer"
    ∧ prepareAuth { type := some "api_key" } = .error "Unsupported auth type: api_key" :=
  ⟨(c10_prepare_auth { type := none }).1 rfl,
   (c10_prepare_auth { type := none }).2.1 rfl,
   (c10_prepare_auth { type := none }).2.2.1 rfl,
   (c10_prepare_auth { type := none }).2.2.2 rfl⟩

/-! ### C1 — status validation failure -/

/-- C1 counterexample: the claim says the `UnexpectedStatus` failure still
carries the original response headers and body; but two stubbed responses
with the same status 404 and *different* headers and bodies produce the
identical error value, so the failure cannot carry (and has dropped) the
headers and body. -/
theorem c1_error_drops_headers_and_body :
    makeRequest (α := Unit) (fun _ => .error "no")
        (fun _ => ⟨.ok { status := 404, headers := [("x-a", "1")], url := "u",
                         content := [1], text := "A" }, 1⟩)
        { url := "https://x", expectedStatus := [200, 201] } =
      makeRequest (α := Unit) (fun _ => .error "no")
        (fun _ => ⟨.ok { status := 404, headers := [("x-b", "2")], url := "u",
                         content := [2], text := "B" }, 1⟩)
        { url := "https://x", expectedStatus := [200, 201] }
    ∧ makeRequest (α := Unit) (fun _ => .error "no")
        (fun _ => ⟨.ok { status := 404, headers := [("x-a", "1")], url := "u",
                         content := [1], text := "A" }, 1⟩)
        { url := "https://x", expectedStatus := [200, 201] } =
      .error "Unexpected status code: 404, expected one of [200, 201]"
    ∧ [("x-a", "1")] ≠ [("x-b", "2")]
    ∧ ([1] : List Nat) ≠ [2] := by
  refine ⟨rfl, rfl, ?_, ?_⟩ <;> decide

/-- C1 (amended): a single request with validate-response enabled whose
response status is not in the expected list fails with the
`Unexpected status code` error carrying the actual status and the expected
list in its message; the original response headers and body are not
attached to the failure. -/
theorem c1_unexpected_status_error {α : Type} (jsonParse : List Nat → Except String α)
    (transport : String → Stub) (op : Operation) (resp : Response)
    (hurl : op.url ≠ "") (hauth : authOk op = true)
    (hresp : (transport op.url).outcome = .ok resp)
    (hval : op.validateResponse = true)
    (hmiss : resp.status ∉ op.expectedStatus) :
    makeRequest jsonParse transport op =
      .error ("Unexpected status code: " ++ toString resp.status ++
              ", expected one of " ++ pyListStr op.expectedStatus) := by
  have h1 : (op.url == "") = false := by
    simp [hurl]
  have hc : op.expectedStatus.contains resp.status = false := by
    simpa using hmiss
  cases hA : op.auth with
  | none => simp [makeRequest, h1, hA, hresp, hval, hc, hmiss]
  | some cfg =>
    have hauth2 : exceptOk (prepareAuth cfg) = true := by
      unfold authOk at hauth
      rw [hA] at hauth
      exact hauth
    cases hPA : prepareAuth cfg with
    | ok c => simp [makeRequest, h1, hA, hPA, hresp, hval, hc, hmiss, Except.map]
    | error e =>
      rw [hPA] at hauth2
      simp [exceptOk] at hauth2

theorem c1_unexpected_status_error_witness :
    makeRequest (α := Unit) (fun _ => .error "no")
        (fun _ => ⟨.ok { status := 404, headers := [("h", "v")], url := "https://x",
                         content := [1], text := "t" }, 1⟩)
        { url := "https://x", expectedStatus := [200, 201] } =
      .error "Unexpected status code: 404, expected one of [200, 201]" :=
  c1_unexpected_status_error (α := Unit) (fun _ => .error "no")
    (fun _ => ⟨.ok { status := 404, headers := [("h", "v")], url := "https://x",
                     content := [1], text := "t" }, 1⟩)
    { url := "https://x", expectedStatus := [200, 201] }
    { status := 404, headers := [("h", "v")], url := "https://x",
      content := [1], text := "t" }
    (by decide) rfl rfl rfl (by decide)

/-! ### C4 — batch fan-out: counts, order, failure isolation -/

theorem batch_counts_aux {α : Type} (jsonParse : List Nat → Except String α)
    (transport : String → Stub) (l : List Operation)
    (hok : ∀ ep ∈ l, okSuccess (makeRequest jsonParse transport ep) = true) :
    successfulCount ((l.map (makeSingleRequest jsonParse transport)).map itemSuccess)
      + (l.filter (fun ep => !(exceptOk (makeRequest jsonParse transport ep)))).length
      = l.length := by
  induction l with
  | nil => rfl
  | cons ep tl ih =>
    have hep := hok ep (by simp)
    have ihtl := ih (fun e he => hok e (by simp [he]))
    cases hmr : makeRequest jsonParse transport ep with
    | ok r =>
      rw [hmr] at hep
      have hs : r.success = true := hep
      simp only [List.map_cons, List.filter_cons, makeSingleRequest, hmr,
        itemSuccess, exceptOk, Bool.not_true, cond_false, successfulCount,
        List.filter, Option.getD_some, hs, List.length_cons] at ihtl ⊢
      omega
    | error e =>
      rw [hmr] at hep
      simp only [List.map_cons, List.filter_cons, makeSingleRequest, hmr,
        itemSuccess, exceptOk, Bool.not_false, cond_true, successfulCount,
        List.filter, Option.getD_some, List.length_cons] at ihtl ⊢
      omega

/-- C4: for a batch of N endpoints of which exactly K fail (raise), the
result has `totalRequests = N`, `successful = N - K`, `failed = K`, a
results sequence of length N whose i-th entry is the converted outcome of
the i-th endpoint (input order preserved), and each per-item failure
becomes the `{url, error, success=false}` record without affecting sibling
items.  The hypothesis says succeeding stubs yield `success = true`
(status < 400), matching the spec's stub scenario. -/
theorem c4_batch_partition {α : Type} (jsonParse : List Nat → Except String α)
    (transport : String → Stub) (endpoints : List Operation)
    (hok : ∀ ep ∈ endpoints, okSuccess (makeRequest jsonParse transport ep) = true) :
    (makeBatchRequests jsonParse transport endpoints).results.length = endpoints.length
    ∧ (makeBatchRequests jsonParse transport endpoints).totalRequests = endpoints.length
    ∧ (makeBatchRequests jsonParse transport endpoints).successful =
        endpoints.length -
          (endpoints.filter
            (fun ep => !(exceptOk (makeRequest jsonParse transport ep)))).length
    ∧ (makeBatchRequests jsonParse transport endpoints).failed =
        (endpoints.filter
          (fun ep => !(exceptOk (makeRequest jsonParse transport ep)))).length
    ∧ (∀ i : Nat, (makeBatchRequests jsonParse transport endpoints).results[i]? =
        (endpoints[i]?).map (makeSingleRequest jsonParse transport))
    ∧ (∀ ep e, makeRequest jsonParse transport ep = .error e →
        makeSingleRequest jsonParse transport ep = .failure ep.url e) := by
  have haux := batch_counts_aux jsonParse transport endpoints hok
  have hK := List.length_filter_le
    (fun ep => !(exceptOk (makeRequest jsonParse transport ep))) endpoints
  refine ⟨by simp [makeBatchRequests], rfl, ?_, ?_, ?_, ?_⟩
  · show successfulCount _ = _
    omega
  · show failedCount _ = _
    unfold failedCount
    have hlen : ((endpoints.map (makeSingleRequest jsonParse transport)).map
        itemSuccess).length = endpoints.length := by simp
    omega
  · intro i
    simp [makeBatchRequests, List.getElem?_map]
  · intro ep e hmr
    simp [makeSingleRequest, hmr]

theorem c4_batch_partition_witness :
    (makeBatchRequests (α := Unit) (fun _ => .error "no")
        (fun _ => ⟨.ok { status := 200, headers := [], url := "u",
                         content := [], text := "" }, 1⟩)
        [{ url := "" }, { url := "https://ok" }]).successful = 1
    ∧ (makeBatchRequests (α := Unit) (fun _ => .error "no")
        (fun _ => ⟨.ok { status := 200, headers := [], url := "u",
                         content := [], text := "" }, 1⟩)
        [{ url := "" }, { url := "https://ok" }]).failed = 1
    ∧ (makeBatchRequests (α := Unit) (fun _ => .error "no")
        (fun _ => ⟨.ok { status := 200, headers := [], url := "u",
                         content := [], text := "" }, 1⟩)
        [{ url := "" }, { url := "https://ok" }]).results.length = 2 :=
  ⟨((c4_batch_partition (α := Unit) (fun _ => .error "no")
      (fun _ => ⟨.ok { status := 200, headers := [], url := "u",
                       content := [], text := "" }, 1⟩)
      [{ url := "" }, { url := "https://ok" }] (by decide)).2.2.1),
   ((c4_batch_partition (α := Unit) (fun _ => .error "no")
      (fun _ => ⟨.ok { status := 200, headers := [], url := "u",
                       content := [], text := "" }, 1⟩)
      [{ url := "" }, { url := "https://ok" }] (by decide)).2.2.2.1),
   ((c4_batch_partition (α := Unit) (fun _ => .error "no")
      (fun _ => ⟨.ok { status := 200, headers := [], url := "u",
                       content := [], text := "" }, 1⟩)
      [{ url := "" }, { url := "https://ok" }] (by decide)).1)⟩

/-! ### C6 — response classification -/

/-- C6: the classifier picks exactly one tag by case-insensitive
content-type priority — `application/json` parses JSON (tag `json`, or tag
`error` carrying the parse-failure message if parsing fails, without
raising); otherwise `text/` or `application/xml` yields the raw text (tag
`text`); otherwise the bytes are base64-encoded (tag `binary`) with the
byte length recorded, and base64-decoding that output reproduces the
original bytes — always alongside status, headers, final URL and a success
flag equal to `status < 400`. -/
theorem c6_parse_response_classification {α : Type}
    (jsonParse : List Nat → Except String α) (resp : Response)
    (hb : ∀ b ∈ resp.content, b < 256) :
    (parseResponse jsonParse resp).status = resp.status
    ∧ (parseResponse jsonParse resp).headers = resp.headers
    ∧ (parseResponse jsonParse resp).url = resp.url
    ∧ (parseResponse jsonParse resp).success = decide (resp.status < 400)
    ∧ (strContains (strLower (dictGet resp.headers "content-type" ""))
          "application/json" = true →
        (∀ v, jsonParse resp.content = .ok v →
          (parseResponse jsonParse resp).contentType = "json"
          ∧ (parseResponse jsonParse resp).data = .json v)
        ∧ (∀ e, jsonParse resp.content = .error e →
          (parseResponse jsonParse resp).contentType = "error"
          ∧ (parseResponse jsonParse resp).data =
              .err ("Error parsing response: " ++ e)))
    ∧ (strContains (strLower (dictGet resp.headers "content-type" ""))
          "application/json" = false →
       (strContains (strLower (dictGet resp.headers "content-type" "")) "text/"
         || strContains (strLower (dictGet resp.headers "content-type" ""))
              "application/xml") = true →
        (parseResponse jsonParse resp).contentType = "text"
        ∧ (parseResponse jsonParse resp).data = .text resp.text)
    ∧ (strContains (strLower (dictGet resp.headers "content-type" ""))
          "application/json" = false →
       (strContains (strLower (dictGet resp.headers "content-type" "")) "text/"
         || strContains (strLower (dictGet resp.headers "content-type" ""))
              "application/xml") = false →
        (parseResponse jsonParse resp).contentType = "binary"
        ∧ (parseResponse jsonParse resp).size = some resp.content.length
        ∧ (parseResponse jsonParse resp).data =
            .binary (String.mk (b64encode resp.content))
        ∧ b64decode (String.mk (b64encode resp.content)).data = resp.content) := by
  refine ⟨?_, ?_, ?_, ?_, ?_, ?_, ?_⟩
  · unfold parseResponse
    split <;> dsimp only <;> split <;> first | rfl | (split <;> rfl)
  · unfold parseResponse
    split <;> dsimp only <;> split <;> first | rfl | (split <;> rfl)
  · unfold parseResponse
    split <;> dsimp only <;> split <;> first | rfl | (split <;> rfl)
  · unfold parseResponse
    split <;> dsimp only <;> split <;> first | rfl | (split <;> rfl)
  · intro hj
    constructor
    · intro v hv
      simp [parseResponse, hj, hv]
    · intro e he
      simp [parseResponse, hj, he]
  · intro hj ht
    simp [parseResponse, hj, ht]
  · intro hj ht
    refine ⟨?_, ?_, ?_, ?_⟩ <;> simp [parseResponse, hj, ht]
    exact b64_roundtrip resp.content hb

theorem c6_parse_response_classification_witness :
    (parseResponse (α := Unit) (fun _ => .error "x")
        { status := 200, headers := [("content-type", "application/octet-stream")],
          url := "u", content := [0, 255, 7], text := "" }).contentType = "binary"
    ∧ (parseResponse (α := Unit) (fun _ => .error "x")
        { status := 200, headers := [("content-type", "application/octet-stream")],
          url := "u", content := [0, 255, 7], text := "" }).size = some 3
    ∧ b64decode (String.mk (b64encode [0, 255, 7])).data = [0, 255, 7] :=
  ((c6_parse_response_classification (α := Unit) (fun _ => .error "x")
      { status := 200, headers := [("content-type", "application/octet-stream")],
        url := "u", content := [0, 255, 7], text := "" }
      (by decide)).2.2.2.2.2.2 rfl rfl).elim
    (fun h1 h2 => ⟨h1, h2.1, h2.2.2⟩)

/-! ### C8 — URL validation before network I/O -/

/-- C8 counterexample: the claim says every operation that issues network
traffic fails with an input-validation error on an empty URL before any
I/O; but `_health_check` performs no URL validation — with an empty URL it
still issues the (stubbed) GET and folds its outcome into a normal report:
a succeeding transport yields a healthy connectivity check, a failing one
an unhealthy check, never an input error. -/
theorem c8_health_check_ignores_empty_url :
    (healthCheck ""
        ⟨.ok { status := 200, headers := [], url := "u", content := [], text := "" }, 3⟩
        ⟨.ok { status := 200, headers := [], url := "u", content := [], text := "" }, 3⟩
        ⟨.ok { status := 200, headers := [], url := "u", content := [], text := "" }, 3⟩).checks =
      [("connectivity", { status := "healthy", statusCode := some 200, responseTime := some 3 }),
       ("security_headers", { status := "warning", present := some [], total := some 4 })]
    ∧ (healthCheck ""
        ⟨.error "connection refused", 3⟩
        ⟨.error "connection refused", 3⟩
        ⟨.error "connection refused", 3⟩).checks =
      [("connectivity", { status := "unhealthy", error := some "connection refused" }),
       ("security_headers", { status := "unhealthy", error := some "connection refused" })]
    ∧ (healthCheck ""
        ⟨.ok { status := 200, headers := [], url := "u", content := [], text := "" }, 3⟩
        ⟨.ok { status := 200, headers := [], url := "u", content := [], text := "" }, 3⟩
        ⟨.ok { status := 200, headers := [], url := "u", content := [], text := "" }, 3⟩).overall
      = "unhealthy" := by
  refine ⟨rfl, rfl, rfl⟩

/-- C8 (amended): an absent or empty URL fails with
`URL is required for API request` before any network I/O for the
single-request path and for each batch item (whose failure record carries
that message), the outcome being independent of the transport; the
health-check and endpoint-diagnostics paths perform no URL validation and
issue the request regardless of the URL, folding any transport failure into
per-check results. -/
theorem c8_url_validation {α : Type} (jsonParse : List Nat → Except String α)
    (transport transport2 : String → Stub) (op : Operation) (url : String)
    (s1 s2 s3 : Stub) (hurl : op.url = "") :
    makeRequest jsonParse transport op = .error "URL is required for API request"
    ∧ makeRequest jsonParse transport op = makeRequest jsonParse transport2 op
    ∧ makeSingleRequest jsonParse transport op =
        .failure op.url "URL is required for API request"
    ∧ (healthCheck url s1 s2 s3).checks[0]? =
        some ("connectivity", connectivityCheck s1)
    ∧ (testEndpoint jsonParse url s1 s2 s3).tests[0]? =
        some (match s1.outcome with
          | .ok resp =>
              { name := "Connectivity", status := "passed",
                details := "Endpoint reachable - Status: " ++ toString resp.status }
          | .error e =>
              { name := "Connectivity", status := "failed",
                details := "Endpoint unreachable: " ++ e }) := by
  refine ⟨?_, ?_, ?_, ?_, ?_⟩
  · simp [makeRequest, hurl]
  · simp [makeRequest, hurl]
  · simp [makeSingleRequest, makeRequest, hurl]
  · by_cases h : strStartsWith url "https://" <;> simp [healthCheck, h]
  · cases hs : s1.outcome <;> simp [testEndpoint, hs]

theorem c8_url_validation_witness :
    makeRequest (α := Unit) (fun _ => .error "no")
        (fun _ => ⟨.error "transport", 0⟩) { url := "" } =
      .error "URL is required for API request"
    ∧ makeSingleRequest (α := Unit) (fun _ => .error "no")
        (fun _ => ⟨.error "transport", 0⟩) { url := "" } =
      .failure "" "URL is required for API request" :=
  ⟨(c8_url_validation (α := Unit) (fun _ => .error "no")
      (fun _ => ⟨.error "transport", 0⟩) (fun _ => ⟨.error "transport", 0⟩)
      { url := "" } "" ⟨.error "t", 0⟩ ⟨.error "t", 0⟩ ⟨.error "t", 0⟩ rfl).1,
   (c8_url_validation (α := Unit) (fun _ => .error "no")
      (fun _ => ⟨.error "transport", 0⟩) (fun _ => ⟨.error "transport", 0⟩)
      { url := "" } "" ⟨.error "t", 0⟩ ⟨.error "t", 0⟩ ⟨.error "t", 0⟩ rfl).2.2.1⟩

end ApiIntegration
